import Mathlib

/-
Shallow embedding of the session-gated CRUD controller in src/src/App.tsx
of the journaling single-page application.  React component-local state is
an explicit `AppState`; each handler is a pure function that takes the
state together with the backend's responses (the results of the awaited
supabase calls) and returns the new state, the list of backend calls it
issued, the console log lines it produced, and any timer it scheduled.
-/

namespace DailyJournal

/-- Embeds the `user` object carried by a supabase `Session`; only the
`id` field is read by the component (line 117 of App.tsx). -/
structure User where
  id : String
deriving DecidableEq

/-- Embeds a supabase `Session`.  In the supabase type the `user` field is
non-optional, so the guard `!session?.user` (line 93) is equivalent to the
session being absent. -/
structure Session where
  user : User
deriving DecidableEq

/-- Embeds the `JournalEntry` interface (lines 6-11 of App.tsx). -/
structure JournalEntry where
  id : String
  content : String
  created_at : String
  user_id : String
deriving DecidableEq

/-- Embeds the component-local React state relevant to the CRUD
controller: `session`, `currentEntry`, `entries`, `saving`, `error`,
`showSuccess` (lines 14, 21-25 of App.tsx). -/
structure AppState where
  session : Option Session
  currentEntry : String
  entries : List JournalEntry
  saving : Bool
  error : Option String
  showSuccess : Bool
deriving DecidableEq

/-- Embeds an error value returned or thrown by the backend.
`isErrorInstance` records whether the JavaScript test `err instanceof
Error` holds for it, which decides whether `err.message` or a fallback
string is surfaced (lines 134 and 152 of App.tsx). -/
structure BackendError where
  message : String
  isErrorInstance : Bool
deriving DecidableEq

/-- Embeds the row object passed to `.insert` (lines 115-121 of App.tsx). -/
structure InsertRow where
  user_id : String
  content : String
  created_at : String
deriving DecidableEq

/-- One backend call issued by the component: `supabase.auth.getSession()`,
the `select('*').order(...)` query of `loadEntries`, an `insert`, or a
`delete().eq('id', id)`. -/
inductive BackendCall where
  | getSession
  | selectEntries
  | insert (row : InsertRow)
  | deleteRow (id : String)
deriving DecidableEq

/-- Embeds the response of `supabase.auth.getSession()`: the shape
`\x7b data: \x7b session \x7d, error \x7d` destructured at line 107. -/
structure GetSessionResponse where
  session : Option Session
  error : Option BackendError
deriving DecidableEq

/-- Embeds the response of the `select` query in `loadEntries`: either
`data` (possibly null, hence `Option`) with no error, or an error. -/
inductive ListResponse where
  | ok (data : Option (List JournalEntry))
  | err (e : BackendError)
deriving DecidableEq

/-- Embeds the JavaScript `String.prototype.trim()`: removes leading and
trailing whitespace.  Defined by structural recursion over the character
list so that concrete instances evaluate. -/
def trimJS (s : String) : String :=
  String.mk
    (((s.data.dropWhile Char.isWhitespace).reverse.dropWhile
        Char.isWhitespace).reverse)

/-- Embeds `loadEntries` (lines 48-60 of App.tsx).  On success the entry
cache is replaced wholesale by `data || []`; on error the function only
logs `console.error('Error loading entries:', err)` and changes no state.
Returns the new state and the log lines produced. -/
def loadEntries (st : AppState) (resp : ListResponse) :
    AppState × List String :=
  match resp with
  | ListResponse.ok data => ({ st with entries := data.getD [] }, [])
  | ListResponse.err _ => (st, ["Error loading entries:"])

/-- Embeds the JavaScript expression
`err instanceof Error ? err.message : fallback`. -/
def surfacedMessage (fallback : String) (e : BackendError) : String :=
  if e.isErrorInstance then e.message else fallback

/-- Fallback message of the save handler's catch (line 134). -/
def jsSaveFallback : String := "Failed to save entry"

/-- Fallback message of the delete handler's catch (line 152). -/
def jsDeleteFallback : String := "Failed to delete entry"

/-- Result of a `handleSaveEntry` invocation: the new component state, the
backend calls issued in order, the console log lines, and the delay in
milliseconds of a scheduled `setTimeout` clearing `showSuccess` (if any). -/
structure SaveResult where
  state : AppState
  calls : List BackendCall
  logs : List String
  timeoutMs : Option Nat
deriving DecidableEq

/-- Embeds `handleSaveEntry` (lines 92-138 of App.tsx).  `sessionResp` is
the response of the awaited `supabase.auth.getSession()` re-check,
`insertResp` the error (if any) of the awaited `insert`, and `nowIso` the
value of `new Date().toISOString()` at the time of the call.  The
fire-and-forget `loadEntries()` of the success path is recorded as a
`selectEntries` call in the trace. -/
def handleSaveEntry (st : AppState) (sessionResp : GetSessionResponse)
    (insertResp : Option BackendError) (nowIso : String) : SaveResult :=
  match st.session with
  | none =>
      { state := { st with error := some "You must be logged in to save entries" },
        calls := [], logs := [], timeoutMs := none }
  | some _ =>
      if (trimJS st.currentEntry).isEmpty then
        { state := { st with error := some "Entry cannot be empty" },
          calls := [], logs := [], timeoutMs := none }
      else
        -- setSaving(true); setError(null)
        let st1 : AppState := { st with saving := true, error := none }
        let expiredState : AppState :=
          { st1 with
              saving := false
              error := some "Session expired. Please log in again." }
        match sessionResp.error, sessionResp.session with
        | some _, _ =>
            { state := expiredState, calls := [BackendCall.getSession],
              logs := ["Error saving entry:"], timeoutMs := none }
        | none, none =>
            { state := expiredState, calls := [BackendCall.getSession],
              logs := ["Error saving entry:"], timeoutMs := none }
        | none, some currentSession =>
            let row : InsertRow :=
              { user_id := currentSession.user.id
                content := st1.currentEntry
                created_at := nowIso }
            match insertResp with
            | some e =>
                { state :=
                    { st1 with
                        saving := false
                        error := some (surfacedMessage jsSaveFallback e) }
                  calls := [BackendCall.getSession, BackendCall.insert row]
                  logs := ["Database error:", "Error saving entry:"]
                  timeoutMs := none }
            | none =>
                { state :=
                    { st1 with
                        saving := false
                        currentEntry := ""
                        showSuccess := true }
                  calls := [BackendCall.getSession, BackendCall.insert row,
                            BackendCall.selectEntries]
                  logs := [], timeoutMs := some 3000 }

/-- Embeds the `setTimeout` callback of line 130:
`() => setShowSuccess(false)`. -/
def showSuccessTimeout (st : AppState) : AppState :=
  { st with showSuccess := false }

/-- Result of a `handleDeleteEntry` invocation. -/
structure DeleteResult where
  state : AppState
  calls : List BackendCall
  logs : List String
deriving DecidableEq

/-- Embeds `handleDeleteEntry` (lines 140-154 of App.tsx).  `confirmed` is
the result of the `confirm(...)` prompt; `deleteResp` the error (if any)
of the awaited `delete().eq('id', id)`.  The success-path `loadEntries()`
is recorded as a `selectEntries` call.  Note the catch block sets the
error state but logs nothing. -/
def handleDeleteEntry (st : AppState) (id : String) (confirmed : Bool)
    (deleteResp : Option BackendError) : DeleteResult :=
  if confirmed then
    match deleteResp with
    | some e =>
        { state := { st with error := some (surfacedMessage jsDeleteFallback e) },
          calls := [BackendCall.deleteRow id], logs := [] }
    | none =>
        { state := st,
          calls := [BackendCall.deleteRow id, BackendCall.selectEntries],
          logs := [] }
  else
    { state := st, calls := [], logs := [] }

/-- Embeds the `onAuthStateChange` handler (lines 38-43 of App.tsx):
`setSession(session); if (session) \x7b loadEntries(); \x7d`.  The boolean
reports whether `loadEntries()` was triggered.  Note the handler never
touches `entries`. -/
def onAuthStateChange (newSession : Option Session) (st : AppState) :
    AppState × Bool :=
  match newSession with
  | some s => ({ st with session := some s }, true)
  | none => ({ st with session := none }, false)

/-- Embeds `handleSignOut` (lines 86-90 of App.tsx): clears the entry
cache and the composer (the session itself becomes absent through the
subsequent auth-state-change event from `signOut()`; we record it here as
well since the component renders the anonymous view once it lands). -/
def handleSignOut (st : AppState) : AppState :=
  { st with session := none, entries := [], currentEntry := "" }

end DailyJournal

namespace DailyJournal

/-- Sample user for concrete instantiations. -/
def sampleUser : User := { id := "u1" }

/-- Sample session for concrete instantiations. -/
def sampleSession : Session := { user := sampleUser }

/-- Sample cached entry for concrete instantiations. -/
def sampleEntry : JournalEntry :=
  { id := "e1", content := "hello", created_at := "2024-01-01T00:00:00.000Z",
    user_id := "u1" }

/-- Concrete signed-in state whose composer holds non-blank text with
surrounding whitespace (so trimming would be observable). -/
def readyComposerState : AppState :=
  { session := some sampleSession, currentEntry := "  hi  ",
    entries := [sampleEntry], saving := false, error := none,
    showSuccess := false }

/-- Concrete signed-in state whose composer holds only whitespace. -/
def blankComposerState : AppState :=
  { readyComposerState with currentEntry := "   " }

/-- Concrete getSession response carrying a valid session. -/
def okSessionResp : GetSessionResponse :=
  { session := some sampleSession, error := none }

/-- Concrete getSession response with no session and no error, i.e. the
session silently expired. -/
def noSessionResp : GetSessionResponse :=
  { session := none, error := none }

/-- Concrete backend error whose JavaScript value is an `Error` instance. -/
def sampleErr : BackendError := { message := "db down", isErrorInstance := true }

/-- State reached right after a successful save, used to examine the
post-mutation refresh. -/
def postSaveState : AppState :=
  (handleSaveEntry readyComposerState okSessionResp none
    "2024-01-02T00:00:00.000Z").state

/-- Claim C1: for every content string whose trim is empty, `handleSaveEntry`
sets an error message, issues no backend call of any kind (no session
re-check, no insert), and leaves the entry list unchanged.  This holds
whether or not a session is present, since both early-return branches set
an error and call nothing. -/
theorem saveEntry_blank_content_rejected (st : AppState)
    (resp : GetSessionResponse) (ins : Option BackendError) (nowIso : String)
    (h : trimJS st.currentEntry = "") :
    (handleSaveEntry st resp ins nowIso).calls = [] ∧
    (handleSaveEntry st resp ins nowIso).state.error.isSome = true ∧
    (handleSaveEntry st resp ins nowIso).state.entries = st.entries := by
  cases hs : st.session with
  | none => simp [handleSaveEntry, hs]
  | some s =>
    have hne : (trimJS st.currentEntry).isEmpty = true := by rw [h]; rfl
    simp [handleSaveEntry, hs, hne]

/-- Witness for claim C1 at a signed-in state whose composer holds
`"   "`. -/
theorem saveEntry_blank_content_rejected_witness :
    (handleSaveEntry blankComposerState okSessionResp none "T").calls = [] ∧
    (handleSaveEntry blankComposerState okSessionResp none "T").state.error.isSome = true ∧
    (handleSaveEntry blankComposerState okSessionResp none "T").state.entries
      = blankComposerState.entries :=
  saveEntry_blank_content_rejected blankComposerState okSessionResp none "T"
    (by decide)

/-- Claim C2: for every content string, when no session is present
`handleSaveEntry` fails with the logged-in-required error message and
issues no backend call at all, so in particular no insert; the entry list
is untouched. -/
theorem saveEntry_no_session_rejected (st : AppState)
    (resp : GetSessionResponse) (ins : Option BackendError) (nowIso : String)
    (h : st.session = none) :
    (handleSaveEntry st resp ins nowIso).calls = [] ∧
    (handleSaveEntry st resp ins nowIso).state.error
      = some "You must be logged in to save entries" ∧
    (handleSaveEntry st resp ins nowIso).state.entries = st.entries := by
  simp [handleSaveEntry, h]

/-- Witness for claim C2 at a signed-out state with non-blank composer
text. -/
theorem saveEntry_no_session_rejected_witness :
    (handleSaveEntry { readyComposerState with session := none }
        okSessionResp none "T").calls = [] ∧
    (handleSaveEntry { readyComposerState with session := none }
        okSessionResp none "T").state.error
      = some "You must be logged in to save entries" ∧
    (handleSaveEntry { readyComposerState with session := none }
        okSessionResp none "T").state.entries
      = ({ readyComposerState with session := none } : AppState).entries :=
  saveEntry_no_session_rejected _ okSessionResp none "T" (by decide)

/-- Claim C3: past the presence and non-emptiness checks, `handleSaveEntry`
re-validates the session with a fresh `getSession` call; if that re-check
returns an error or no session, it fails with the `Session expired.` error
message and the only backend call issued is the `getSession` itself — no
insert happens. -/
theorem saveEntry_recheck_expired (st : AppState) (resp : GetSessionResponse)
    (ins : Option BackendError) (nowIso : String) (s : Session)
    (hs : st.session = some s)
    (hne : (trimJS st.currentEntry).isEmpty = false)
    (hfail : resp.error.isSome = true ∨ resp.session = none) :
    (handleSaveEntry st resp ins nowIso).state.error
      = some "Session expired. Please log in again." ∧
    (handleSaveEntry st resp ins nowIso).calls = [BackendCall.getSession] := by
  obtain ⟨rs, re⟩ := resp
  cases re with
  | some e => simp [handleSaveEntry, hs, hne]
  | none =>
    cases rs with
    | none => simp [handleSaveEntry, hs, hne]
    | some cs => simp at hfail

/-- Witness for claim C3 at a re-check that finds no session. -/
theorem saveEntry_recheck_expired_witness :
    (handleSaveEntry readyComposerState noSessionResp none "T").state.error
      = some "Session expired. Please log in again." ∧
    (handleSaveEntry readyComposerState noSessionResp none "T").calls
      = [BackendCall.getSession] :=
  saveEntry_recheck_expired readyComposerState noSessionResp none "T"
    sampleSession (by decide) (by decide) (by decide)

/-- Claim C4: with non-blank content and a valid re-checked session, the
inserted row has `user_id` equal to the re-checked session's user id,
`content` equal to the composer input exactly as typed (not trimmed), and
`created_at` equal to the ISO-8601 serialization of the current time. -/
theorem saveEntry_insert_row_fields (st : AppState) (resp : GetSessionResponse)
    (ins : Option BackendError) (nowIso : String) (s cs : Session)
    (hs : st.session = some s)
    (hne : (trimJS st.currentEntry).isEmpty = false)
    (hre : resp.error = none) (hrs : resp.session = some cs) :
    BackendCall.insert
        { user_id := cs.user.id, content := st.currentEntry,
          created_at := nowIso }
      ∈ (handleSaveEntry st resp ins nowIso).calls := by
  obtain ⟨rs, re⟩ := resp
  simp only at hre hrs
  subst hre hrs
  cases ins <;> simp [handleSaveEntry, hs, hne]

/-- Witness for claim C4: the inserted content keeps its surrounding
whitespace. -/
theorem saveEntry_insert_row_fields_witness :
    BackendCall.insert
        { user_id := sampleSession.user.id,
          content := readyComposerState.currentEntry,
          created_at := "2024-01-02T00:00:00.000Z" }
      ∈ (handleSaveEntry readyComposerState okSessionResp none
          "2024-01-02T00:00:00.000Z").calls :=
  saveEntry_insert_row_fields readyComposerState okSessionResp none
    "2024-01-02T00:00:00.000Z" sampleSession sampleSession
    (by decide) (by decide) (by decide) (by decide)

/-- Claim C5: when the insert fails, `handleSaveEntry` leaves the composer
input unchanged so the user can retry, does not set the success flag,
schedules no success timer, and surfaces the failure: the stored message is
the backend error's own message whenever that error is an `Error` instance
(as supabase errors are), and a fixed fallback otherwise. -/
theorem saveEntry_insert_failure_keeps_input (st : AppState)
    (resp : GetSessionResponse) (e : BackendError) (nowIso : String)
    (s cs : Session)
    (hs : st.session = some s)
    (hne : (trimJS st.currentEntry).isEmpty = false)
    (hre : resp.error = none) (hrs : resp.session = some cs) :
    (handleSaveEntry st resp (some e) nowIso).state.currentEntry
      = st.currentEntry ∧
    (handleSaveEntry st resp (some e) nowIso).state.showSuccess
      = st.showSuccess ∧
    (handleSaveEntry st resp (some e) nowIso).state.error
      = some (surfacedMessage jsSaveFallback e) ∧
    (e.isErrorInstance = true →
      (handleSaveEntry st resp (some e) nowIso).state.error = some e.message) ∧
    (handleSaveEntry st resp (some e) nowIso).timeoutMs = none := by
  obtain ⟨rs, re⟩ := resp
  simp only at hre hrs
  subst hre hrs
  refine ⟨?_, ?_, ?_, ?_, ?_⟩ <;>
      simp [handleSaveEntry, hs, hne, surfacedMessage]
  intro hi
  simp [hi]

/-- Witness for claim C5 at a failing insert whose error is an `Error`
instance. -/
theorem saveEntry_insert_failure_keeps_input_witness :
    (handleSaveEntry readyComposerState okSessionResp (some sampleErr)
        "T").state.currentEntry = readyComposerState.currentEntry ∧
    (handleSaveEntry readyComposerState okSessionResp (some sampleErr)
        "T").state.showSuccess = readyComposerState.showSuccess ∧
    (handleSaveEntry readyComposerState okSessionResp (some sampleErr)
        "T").state.error = some (surfacedMessage jsSaveFallback sampleErr) ∧
    (sampleErr.isErrorInstance = true →
      (handleSaveEntry readyComposerState okSessionResp (some sampleErr)
        "T").state.error = some sampleErr.message) ∧
    (handleSaveEntry readyComposerState okSessionResp (some sampleErr)
        "T").timeoutMs = none :=
  saveEntry_insert_failure_keeps_input readyComposerState okSessionResp
    sampleErr "T" sampleSession sampleSession
    (by decide) (by decide) (by decide) (by decide)

/-- Claim C6: on a successful insert, `handleSaveEntry` clears the composer
to the empty string, sets the transient success flag, schedules the timer
that clears it after the fixed 3000 ms window (the timer callback indeed
resets the flag), and triggers the `loadEntries` select query to refresh
the entry cache. -/
theorem saveEntry_success_clears_and_refreshes (st : AppState)
    (resp : GetSessionResponse) (nowIso : String) (s cs : Session)
    (hs : st.session = some s)
    (hne : (trimJS st.currentEntry).isEmpty = false)
    (hre : resp.error = none) (hrs : resp.session = some cs) :
    (handleSaveEntry st resp none nowIso).state.currentEntry = "" ∧
    (handleSaveEntry st resp none nowIso).state.showSuccess = true ∧
    (handleSaveEntry st resp none nowIso).timeoutMs = some 3000 ∧
    (showSuccessTimeout
        (handleSaveEntry st resp none nowIso).state).showSuccess = false ∧
    BackendCall.selectEntries ∈ (handleSaveEntry st resp none nowIso).calls := by
  obtain ⟨rs, re⟩ := resp
  simp only at hre hrs
  subst hre hrs
  simp [handleSaveEntry, hs, hne, showSuccessTimeout]

/-- Witness for claim C6 at a concrete successful save. -/
theorem saveEntry_success_clears_and_refreshes_witness :
    (handleSaveEntry readyComposerState okSessionResp none
        "T").state.currentEntry = "" ∧
    (handleSaveEntry readyComposerState okSessionResp none
        "T").state.showSuccess = true ∧
    (handleSaveEntry readyComposerState okSessionResp none
        "T").timeoutMs = some 3000 ∧
    (showSuccessTimeout
        (handleSaveEntry readyComposerState okSessionResp none
          "T").state).showSuccess = false ∧
    BackendCall.selectEntries
      ∈ (handleSaveEntry readyComposerState okSessionResp none "T").calls :=
  saveEntry_success_clears_and_refreshes readyComposerState okSessionResp
    "T" sampleSession sampleSession (by decide) (by decide) (by decide)
    (by decide)

/-- Claim C7: for every prior state, when the list query fails
`loadEntries` returns the state completely unchanged — in particular the
cached entry list keeps exactly its elements and their order
(stale-but-available). -/
theorem loadEntries_failure_keeps_cache (st : AppState) (e : BackendError) :
    (loadEntries st (ListResponse.err e)).fst = st := rfl

/-- Counterexample for claim C8: a `loadEntries` failure during the
refresh right after a successful save sets no error message at all (the
error state stays `none`), so post-mutation read failures are swallowed,
not surfaced; moreover a delete failure, while surfaced, logs nothing. -/
theorem loadEntries_refresh_failure_swallowed_cex :
    (loadEntries postSaveState (ListResponse.err sampleErr)).fst.error
      = none ∧
    (handleDeleteEntry readyComposerState "e1" true (some sampleErr)).logs
      = [] := by
  decide

/-- Claim C8 as amended: save failures are surfaced as messages in the
error state and logged; delete failures are surfaced but not logged; and
every `loadEntries` failure — initial load and post-mutation refresh
alike — is logged only, leaving the error state (and the cached entries)
untouched. -/
theorem error_surfacing_amended (st : AppState) (e : BackendError)
    (id : String) (resp : GetSessionResponse) (nowIso : String)
    (s cs : Session)
    (hs : st.session = some s)
    (hne : (trimJS st.currentEntry).isEmpty = false)
    (hre : resp.error = none) (hrs : resp.session = some cs) :
    (loadEntries st (ListResponse.err e)).fst.error = st.error ∧
    (loadEntries st (ListResponse.err e)).snd = ["Error loading entries:"] ∧
    (handleDeleteEntry st id true (some e)).state.error.isSome = true ∧
    (handleDeleteEntry st id true (some e)).logs = [] ∧
    (handleSaveEntry st resp (some e) nowIso).state.error.isSome = true ∧
    (handleSaveEntry st resp (some e) nowIso).logs
      = ["Database error:", "Error saving entry:"] := by
  obtain ⟨rs, re⟩ := resp
  simp only at hre hrs
  subst hre hrs
  refine ⟨rfl, rfl, ?_, ?_, ?_, ?_⟩ <;>
    simp [handleDeleteEntry, handleSaveEntry, loadEntries, hs, hne]

/-- Witness for the amended claim C8 at concrete failing operations. -/
theorem error_surfacing_amended_witness :
    (loadEntries readyComposerState (ListResponse.err sampleErr)).fst.error
      = readyComposerState.error ∧
    (loadEntries readyComposerState (ListResponse.err sampleErr)).snd
      = ["Error loading entries:"] ∧
    (handleDeleteEntry readyComposerState "e1" true
        (some sampleErr)).state.error.isSome = true ∧
    (handleDeleteEntry readyComposerState "e1" true (some sampleErr)).logs
      = [] ∧
    (handleSaveEntry readyComposerState okSessionResp (some sampleErr)
        "T").state.error.isSome = true ∧
    (handleSaveEntry readyComposerState okSessionResp (some sampleErr)
        "T").logs = ["Database error:", "Error saving entry:"] :=
  error_surfacing_amended readyComposerState sampleErr "e1" okSessionResp
    "T" sampleSession sampleSession (by decide) (by decide) (by decide)
    (by decide)

/-- Counterexample for claim C9: a session-change event with an absent
session does not clear the entry-list cache — the handler leaves the
non-empty cached list exactly as it was instead of setting it to `[]`. -/
theorem authChange_absent_no_cache_clear_cex :
    (onAuthStateChange none readyComposerState).fst.entries = [sampleEntry] ∧
    ([sampleEntry] : List JournalEntry) ≠ [] := by
  decide

/-- Claim C9 as amended: on a session-change event the handler stores the
new session and triggers an entry-list refresh when the session is
present; when the session is absent it stores the absence but leaves the
entry list untouched and triggers no refresh — the cache is cleared only
by the explicit sign-out handler. -/
theorem authChange_refresh_or_keep (st : AppState) (s : Session) :
    (onAuthStateChange (some s) st).fst.session = some s ∧
    (onAuthStateChange (some s) st).snd = true ∧
    (onAuthStateChange none st).fst.session = none ∧
    (onAuthStateChange none st).fst.entries = st.entries ∧
    (onAuthStateChange none st).snd = false ∧
    (handleSignOut st).entries = [] := by
  refine ⟨rfl, rfl, rfl, rfl, rfl, rfl⟩

/-- Counterexample for claim C10: the claim's contrast premise — that
`listEntries`, like `saveEntry`, performs a session-presence check — is
false.  `loadEntries` never reads the session: at a concrete state with
no session present it still processes the select response, replacing the
cache with the fetched entries and setting no error, exactly as it would
with a session. -/
theorem loadEntries_ungated_cex :
    (loadEntries { readyComposerState with session := none, entries := [] }
        (ListResponse.ok (some [sampleEntry]))).fst.entries
      = [sampleEntry] ∧
    (loadEntries { readyComposerState with session := none, entries := [] }
        (ListResponse.ok (some [sampleEntry]))).fst.error = none := by
  decide

/-- Claim C10 as amended: unlike `handleSaveEntry` (which gates on session
presence at its first check), `handleDeleteEntry` performs no
session-presence check.  When the confirmation prompt is declined, no
backend call is made and the whole client state is unchanged; once
confirmed, the delete call is issued for every state — in particular also
when no session is present. -/
theorem deleteEntry_ungated_by_session (st : AppState) (id : String)
    (resp : Option BackendError) :
    handleDeleteEntry st id false resp
      = { state := st, calls := [], logs := [] } ∧
    BackendCall.deleteRow id ∈ (handleDeleteEntry st id true resp).calls ∧
    BackendCall.deleteRow id
      ∈ (handleDeleteEntry { st with session := none } id true resp).calls := by
  refine ⟨rfl, ?_, ?_⟩ <;> cases resp <;> simp [handleDeleteEntry]

end DailyJournal
